import Mathlib

/-!
Shallow embedding of the EasyCare warranty/claim server (src/server.js and
src/permissions.js).  Monetary amounts and the parsed `cost` field are
modelled as exact rationals (`ℚ`), timestamps as integer milliseconds (`ℤ`),
Mongoose `null`/absent fields as `Option`.  `Math.floor` is `Int.floor` on ℚ.
-/

namespace EasyCare

/-- One entry of `payment.schedule` in `WarrantySchema` (src/server.js:97-107);
only the fields the modelled routes read are carried. -/
structure ScheduleEntry where
  installmentNo : ℤ
  amount : ℚ
  status : String
deriving DecidableEq, Repr

/-- The `payment` subdocument of `WarrantySchema` (src/server.js:90-108). -/
structure Payment where
  method : String
  status : String
  schedule : List ScheduleEntry
deriving DecidableEq, Repr

/-- The `device` subdocument of `WarrantySchema` (src/server.js:72-81);
only `deviceValue` participates in the modelled computations. -/
structure Device where
  serial : String
  deviceValue : Option ℚ
deriving DecidableEq, Repr

/-- `WarrantySchema` (src/server.js:55-120), restricted to the fields read or
written by the routes under verification.  Schema defaults: `installmentsPaid`
1, `usedCoverage` 0, `approvalStatus` "pending", `claimStatus` "normal". -/
structure Warranty where
  policyNumber : String
  memberId : String
  devicePrice : Option ℚ
  installmentsPaid : ℤ
  usedCoverage : ℚ
  device : Device
  payment : Payment
  approvalStatus : String
  approver : Option String
  approvalDate : Option ℤ
  rejectReason : Option String
  rejectBy : Option String
  rejectDate : Option ℤ
  claimStatus : String
deriving DecidableEq, Repr

/-- `Number(this.devicePrice ?? this.device?.deviceValue ?? 0)`
(src/server.js:123). -/
def basePrice (w : Warranty) : ℚ :=
  (w.devicePrice.orElse fun _ => w.device.deviceValue).getD 0

/-- Virtual `maxLimit` (src/server.js:122-125): `Math.floor(basePrice * 0.70)`. -/
def maxLimit (w : Warranty) : ℤ :=
  Int.floor (basePrice w * (70 / 100 : ℚ))

/-- Virtual `currentLimit` (src/server.js:127-133): tiered by
`installmentsPaid`, each product floored on its own. -/
def currentLimit (w : Warranty) : ℤ :=
  let m : ℚ := (maxLimit w : ℚ)
  if 3 ≤ w.installmentsPaid then Int.floor (m * 1)
  else if w.installmentsPaid = 2 then Int.floor (m * (30 / 100 : ℚ))
  else Int.floor (m * (10 / 100 : ℚ))

/-- Virtual `remainingLimit` (src/server.js:135-139): `currentLimit - usedCoverage`. -/
def remainingLimit (w : Warranty) : ℚ :=
  (currentLimit w : ℚ) - w.usedCoverage

/-- Server-side derivation of `installmentsPaid` from the payment schedule,
as coded on the create and payment routes (src/server.js:626-636, 1046-1059):
count of schedule entries with status "Paid", clamped to [0,3], when the
method is "Installment"; otherwise 3. -/
def derivedInstallmentsPaid (p : Payment) : ℤ :=
  if p.method = "Installment" then
    min 3 (max 0 ((p.schedule.filter fun s => s.status = "Paid").length : ℤ))
  else 3

/-- One entry of `ClaimSchema.updates` (src/server.js:223-235). -/
structure ClaimUpdate where
  step : ℤ
  title : String
  date : ℤ
  cost : ℚ
  centerName : String
  centerLocation : String
  centerPhone : String
  technicianName : String
  technicianPhone : String
  images : List String
  evidenceImages : List String
deriving DecidableEq, Repr

/-- `ClaimSchema` (src/server.js:192-255), restricted to the fields the
modelled routes touch.  Schema defaults: `status` "รอเคลม", `totalCost` 0. -/
structure Claim where
  claimId : String
  warrantyId : String
  status : String
  totalCost : ℚ
  updates : List ClaimUpdate
  claimDate : ℤ
  pickupDate : Option ℤ
  completedReturnMethod : Option String
  completedReturnBranch : Option String
  completedDeliveryAddressType : Option String
  completedDeliveryAddressDetail : Option String
deriving DecidableEq, Repr

/-- `POST /api/claims` (src/server.js:1156-1222): creates the claim with the
schema defaults (`status` "รอเคลม", `totalCost` 0, empty `updates`, no
`pickupDate`) and sets the owning warranty's `claimStatus` to "pending"
(src/server.js:1216). -/
def intakeClaim (cid wid : String) (w : Warranty) (now : ℤ) : Claim × Warranty :=
  (⟨cid, wid, "รอเคลม", 0, [], now, none, none, none, none, none⟩,
   { w with claimStatus := "pending" })

/-- The request body/files of `POST /api/claims/:id/updates`
(src/server.js:1348-1363) after parsing: `cost` is `parseFloat(req.body.cost) || 0`. -/
structure UpdateRequest where
  title : String
  cost : ℚ
  centerName : String
  centerLocation : String
  centerPhone : String
  technicianName : String
  technicianPhone : String
  images : List String
  evidenceImages : List String
deriving DecidableEq, Repr

/-- `POST /api/claims/:id/updates` (src/server.js:1348-1407): rejects with a
400 when `cost > 0` and no evidence image is attached; otherwise pushes the
update with `step = updates.length + 2` and adds `cost` to `totalCost`. -/
def addProgressUpdate (c : Claim) (req : UpdateRequest) (now : ℤ) :
    Except String Claim :=
  let nextStep : ℤ := (c.updates.length : ℤ) + 2
  if req.cost > 0 ∧ req.evidenceImages.length = 0 then
    Except.error "หากมีค่าใช้จ่าย กรุณาแนบรูปหลักฐานอย่างน้อย 1 รูป"
  else
    Except.ok { c with
      updates := c.updates ++
        [⟨nextStep, req.title, now, req.cost, req.centerName, req.centerLocation,
          req.centerPhone, req.technicianName, req.technicianPhone,
          req.images, req.evidenceImages⟩],
      totalCost := c.totalCost + req.cost }

/-- The claim state after `POST /api/claims/:id/updates`: on rejection the
route returns before any mutation, so the stored claim is unchanged. -/
def addProgressUpdateState (c : Claim) (req : UpdateRequest) (now : ℤ) : Claim :=
  match addProgressUpdate c req now with
  | Except.error _ => c
  | Except.ok c2 => c2

/-- The request body/files of `POST /api/claims/:id/complete`
(src/server.js:1410-1429). -/
structure CompleteRequest where
  returnMethod : String
  pickupBranch : String
  deliveryAddressType : String
  deliveryAddressDetail : String
  images : List String
deriving DecidableEq, Repr

/-- `POST /api/claims/:id/complete` (src/server.js:1410-1459), claim side:
records the return method, sets `status` to "รับเครื่องแล้ว", stamps
`pickupDate = now`, and appends a final completion update with cost 0. -/
def completeClaim (c : Claim) (req : CompleteRequest) (now : ℤ) : Claim :=
  let title := "ปิดงานเคลม: " ++
    (if req.returnMethod = "pickup" then
      "ลูกค้ามารับเครื่องที่สาขา " ++ req.pickupBranch
     else if req.returnMethod = "delivery" then "จัดส่งเรียบร้อยแล้ว"
     else "")
  let nextStep : ℤ := (c.updates.length : ℤ) + 2
  { c with
    completedReturnMethod := some req.returnMethod,
    completedReturnBranch :=
      if req.returnMethod = "pickup" then some req.pickupBranch
      else c.completedReturnBranch,
    completedDeliveryAddressType :=
      if req.returnMethod = "delivery" then some req.deliveryAddressType
      else c.completedDeliveryAddressType,
    completedDeliveryAddressDetail :=
      if req.returnMethod = "delivery" then some req.deliveryAddressDetail
      else c.completedDeliveryAddressDetail,
    status := "รับเครื่องแล้ว",
    pickupDate := some now,
    updates := c.updates ++
      [⟨nextStep, title, now, 0, "", "", "", "", "", req.images, []⟩] }

/-- `POST /api/claims/:id/complete`, warranty side (src/server.js:1462):
`claimStatus` is set back to "normal". -/
def completeWarranty (w : Warranty) : Warranty :=
  { w with claimStatus := "normal" }

/-- The aggregate `$match` + `$group`/`$sum` run by the `usedCoverage` sync
(src/server.js:1390-1394): the sum of `totalCost` over all claims whose
`warrantyId` equals the given warranty id. -/
def claimAggTotal (claims : List Claim) (wid : String) : ℚ :=
  ((claims.filter fun c => c.warrantyId = wid).map Claim.totalCost).sum

/-- The Coverage Reconciler (src/server.js:1387-1399): after a claim-cost
mutation for the claim's `warrantyId` `wid`, the warranty stored under `wid`
gets its `usedCoverage` overwritten with the aggregate total over all claims
referencing `wid`. -/
def syncUsedCoverage (claims : List Claim) (wid : String) (w : Warranty) : Warranty :=
  { w with usedCoverage := claimAggTotal claims wid }

/-- `PUT /api/warranties/:id/approve` (src/server.js:765-782): a single
unconditional `findByIdAndUpdate` setting `approvalStatus`, `approver`,
`approvalDate`; no guard on the current `approvalStatus`. -/
def approveWarranty (w : Warranty) (approver : String) (now : ℤ) : Warranty :=
  { w with approvalStatus := "approved", approver := some approver,
           approvalDate := some now }

/-- `PUT /api/warranties/:id/reject` (src/server.js:785-803): a single
unconditional `findByIdAndUpdate` setting `approvalStatus`, `rejectReason`,
`rejectBy`, `rejectDate`; no guard on the current `approvalStatus`. -/
def rejectWarranty (w : Warranty) (reason rejectBy : String) (now : ℤ) : Warranty :=
  { w with approvalStatus := "rejected", rejectReason := some reason,
           rejectBy := some rejectBy, rejectDate := some now }

/-- The request body of `PUT /api/warranties/:id` (src/server.js:977-993):
after destructuring `memberId` away, every remaining field of `req.body` is
passed verbatim to `findByIdAndUpdate`.  A field that is `none` was absent
from the body and the stored value is kept. -/
structure WarrantyUpdateBody where
  devicePrice : Option ℚ
  installmentsPaid : Option ℤ
  usedCoverage : Option ℚ
  payment : Option Payment
  claimStatus : Option String
deriving DecidableEq, Repr

/-- `PUT /api/warranties/:id` (src/server.js:977-993): applies the body
fields as-is (only `memberId` is stripped); in particular a client-supplied
`installmentsPaid` is persisted without recomputation. -/
def putWarranty (w : Warranty) (body : WarrantyUpdateBody) : Warranty :=
  { w with
    devicePrice := body.devicePrice.orElse fun _ => w.devicePrice,
    installmentsPaid := body.installmentsPaid.getD w.installmentsPaid,
    usedCoverage := body.usedCoverage.getD w.usedCoverage,
    payment := body.payment.getD w.payment,
    claimStatus := body.claimStatus.getD w.claimStatus }

/-- `POST /api/warranties` (src/server.js:603-654): the new contract is built
from the body, then `installmentsPaid` is overwritten server-side from the
payment schedule (src/server.js:625-636) before the save. -/
def createWarranty (body : Warranty) (policyNumber : String) : Warranty :=
  let w := { body with policyNumber := policyNumber, approvalStatus := "pending" }
  { w with installmentsPaid := derivedInstallmentsPaid w.payment }

/-- `24 * 60 * 60 * 1000` (src/server.js:1291). -/
def MS_PER_DAY : ℤ := 24 * 60 * 60 * 1000

/-- The timestamp the overdue enrichment measures from (src/server.js:1293-1297):
the date of the last element of `updates`, or `claimDate` when there are none. -/
def lastUpdateTime (c : Claim) : ℤ :=
  match c.updates.getLast? with
  | some u => u.date
  | none => c.claimDate

/-- `Math.floor((now - lastUpdateTime) / MS_PER_DAY)` (src/server.js:1299-1301). -/
def daysSinceUpdate (c : Claim) (now : ℤ) : ℤ :=
  Int.floor (((now - lastUpdateTime c : ℤ) : ℚ) / (MS_PER_DAY : ℚ))

/-- `isOverdue = daysSinceUpdate >= 5` (src/server.js:1303). -/
def isOverdue (c : Claim) (now : ℤ) : Bool :=
  5 ≤ daysSinceUpdate c now

/-- `daysOverdue = isOverdue ? daysSinceUpdate : 0` (src/server.js:1308). -/
def daysOverdue (c : Claim) (now : ℤ) : ℤ :=
  if isOverdue c now then daysSinceUpdate c now else 0

/-- One claim-mutating operation of the workflow, as exposed by the routes. -/
inductive ClaimOp where
  | addUpdate (req : UpdateRequest) (now : ℤ)
  | complete (req : CompleteRequest) (now : ℤ)
deriving DecidableEq, Repr

/-- The claim state reached by one workflow operation. -/
def applyOp (c : Claim) : ClaimOp → Claim
  | ClaimOp.addUpdate req now => addProgressUpdateState c req now
  | ClaimOp.complete req now => completeClaim c req now

/-- The claim state reached by a sequence of workflow operations. -/
def runOps (c : Claim) (ops : List ClaimOp) : Claim :=
  ops.foldl applyOp c

/-- The claim-cost invariant: `totalCost` equals the sum of `updates[].cost`. -/
def costInvariant (c : Claim) : Prop :=
  c.totalCost = (c.updates.map ClaimUpdate.cost).sum

/-- An operation whose parsed cost is nonnegative (`complete` always uses 0). -/
def opCostNonneg : ClaimOp → Prop
  | ClaimOp.addUpdate req _ => 0 ≤ req.cost
  | ClaimOp.complete _ _ => True

/-- `menuPermissions` (src/permissions.js:1-8), as an association list. -/
def menuPermissions : List (String × List String) :=
  [("nav-packages", ["sales", "admin"]),
   ("nav-members", ["sales", "admin"]),
   ("nav-shops", ["sales", "admin"]),
   ("nav-claims", ["sales", "admin"]),
   ("nav-tracking", ["sales", "admin"]),
   ("nav-approval", ["approver", "admin"])]

/-- `hasPermission` (src/permissions.js:15-36) with the resolved `userRole`
passed explicitly (the source resolves it from browser storage): a key absent
from `menuPermissions` yields `true`; a present key checks membership of the
role in the key's list. -/
def hasPermission (permissionKey userRole : String) : Bool :=
  match menuPermissions.find? fun e => e.1 = permissionKey with
  | none => true
  | some e => e.2.contains userRole

/-- A warranty with the schema defaults and the given price and tier, used to
state properties of the coverage calculator as a function of
`(devicePrice, installmentsPaid)`. -/
def mkWarranty (price : ℚ) (paid : ℤ) : Warranty :=
  { policyNumber := "1000000", memberId := "M0001",
    devicePrice := some price, installmentsPaid := paid, usedCoverage := 0,
    device := { serial := "SN-1", deviceValue := none },
    payment := { method := "Cash", status := "Pending", schedule := [] },
    approvalStatus := "pending", approver := none, approvalDate := none,
    rejectReason := none, rejectBy := none, rejectDate := none,
    claimStatus := "normal" }

/-- The spec's worked example: `devicePrice = 10000`, `installmentsPaid = 2`,
`usedCoverage = 500`. -/
def exampleWarranty : Warranty :=
  { mkWarranty 10000 2 with usedCoverage := 500, approvalStatus := "approved" }

theorem floor_eq_of_eq_intCast (q : ℚ) (z : ℤ) (h : q = (z : ℚ)) :
    Int.floor q = z := by
  rw [h, Int.floor_intCast]

theorem basePrice_mkWarranty (price : ℚ) (paid : ℤ) :
    basePrice (mkWarranty price paid) = price := rfl

theorem maxLimit_exampleWarranty : maxLimit exampleWarranty = 7000 := by
  have h : basePrice exampleWarranty * (70 / 100 : ℚ) = ((7000 : ℤ) : ℚ) := by
    show (10000 : ℚ) * (70 / 100) = ((7000 : ℤ) : ℚ)
    norm_num
  exact floor_eq_of_eq_intCast _ _ h

/-- C1: the coverage calculator computes `maxLimit = floor(devicePrice * 0.70)`
and `currentLimit` tiered by `installmentsPaid` (`≥3` → `floor(maxLimit*1.0)`,
`=2` → `floor(maxLimit*0.30)`, `=1` or `0` → `floor(maxLimit*0.10)`), each
product floored independently; on `devicePrice = 10000`, `installmentsPaid = 2`,
`usedCoverage = 500` this yields `maxLimit = 7000`, `currentLimit = 2100`,
`remainingLimit = 1600`. -/
theorem coverage_calculator_tiered_limits (w : Warranty) :
    maxLimit w = Int.floor (basePrice w * (70 / 100 : ℚ)) ∧
    (3 ≤ w.installmentsPaid →
      currentLimit w = Int.floor ((maxLimit w : ℚ) * 1)) ∧
    (w.installmentsPaid = 2 →
      currentLimit w = Int.floor ((maxLimit w : ℚ) * (30 / 100))) ∧
    (w.installmentsPaid = 1 ∨ w.installmentsPaid = 0 →
      currentLimit w = Int.floor ((maxLimit w : ℚ) * (10 / 100))) ∧
    maxLimit exampleWarranty = 7000 ∧
    currentLimit exampleWarranty = 2100 ∧
    remainingLimit exampleWarranty = 1600 := by
  refine ⟨rfl, ?_, ?_, ?_, maxLimit_exampleWarranty, ?_, ?_⟩
  · intro h
    simp only [currentLimit]
    rw [if_pos h]
  · intro h
    simp only [currentLimit]
    rw [if_neg (by omega), if_pos h]
  · intro h
    simp only [currentLimit]
    rw [if_neg (by omega), if_neg (by omega)]
  · show currentLimit exampleWarranty = 2100
    simp only [currentLimit]
    rw [if_neg (by decide), if_pos (by decide), maxLimit_exampleWarranty]
    exact floor_eq_of_eq_intCast _ _ (by norm_num)
  · show remainingLimit exampleWarranty = 1600
    unfold remainingLimit
    have hc : currentLimit exampleWarranty = 2100 := by
      simp only [currentLimit]
      rw [if_neg (by decide), if_pos (by decide), maxLimit_exampleWarranty]
      exact floor_eq_of_eq_intCast _ _ (by norm_num)
    rw [hc]
    show ((2100 : ℤ) : ℚ) - (500 : ℚ) = 1600
    norm_num

/-- C1 witness: the tier implications discharged at the worked example. -/
theorem coverage_calculator_tiered_limits_witness :
    currentLimit exampleWarranty =
      Int.floor ((maxLimit exampleWarranty : ℚ) * (30 / 100)) ∧
    maxLimit exampleWarranty = 7000 ∧
    currentLimit exampleWarranty = 2100 ∧
    remainingLimit exampleWarranty = 1600 :=
  ⟨(coverage_calculator_tiered_limits exampleWarranty).2.2.1 rfl,
   (coverage_calculator_tiered_limits exampleWarranty).2.2.2.2.1,
   (coverage_calculator_tiered_limits exampleWarranty).2.2.2.2.2.1,
   (coverage_calculator_tiered_limits exampleWarranty).2.2.2.2.2.2⟩

theorem maxLimit_mkWarranty (price : ℚ) (paid : ℤ) :
    maxLimit (mkWarranty price paid) = Int.floor (price * (70 / 100 : ℚ)) := rfl

theorem maxLimit_nonneg_of_price_nonneg (price : ℚ) (paid : ℤ) (hp : 0 ≤ price) :
    0 ≤ maxLimit (mkWarranty price paid) := by
  rw [maxLimit_mkWarranty]
  exact Int.floor_nonneg.mpr (by positivity)

/-- The coverage percentage unlocked at each `installmentsPaid` tier, read off
the branches of the `currentLimit` virtual (src/server.js:130-132). -/
def installmentTier (k : ℤ) : ℚ :=
  if 3 ≤ k then 1 else if k = 2 then 30 / 100 else 10 / 100

theorem installmentTier_monotone (k l : ℤ) (h : k ≤ l) :
    installmentTier k ≤ installmentTier l := by
  unfold installmentTier
  split_ifs <;> first | omega | norm_num

theorem installmentTier_le_one (k : ℤ) : installmentTier k ≤ 1 := by
  unfold installmentTier
  split_ifs <;> norm_num

/-- C8: for `devicePrice ≥ 0` and `installmentsPaid` tiers in `[0,3]`,
`currentLimit` is monotone non-decreasing in `installmentsPaid` at fixed
price, and never exceeds `floor(devicePrice * 0.70)`. -/
theorem currentLimit_monotone_and_bounded (p : ℚ) (hp : 0 ≤ p) (i j : ℤ)
    (hi : 0 ≤ i) (hij : i ≤ j) (hj : j ≤ 3) :
    currentLimit (mkWarranty p i) ≤ currentLimit (mkWarranty p j) ∧
    currentLimit (mkWarranty p i) ≤ Int.floor (p * (70 / 100 : ℚ)) := by
  have hm : 0 ≤ maxLimit (mkWarranty p i) := maxLimit_nonneg_of_price_nonneg p i hp
  have hmQ : (0 : ℚ) ≤ ((maxLimit (mkWarranty p i) : ℤ) : ℚ) := by exact_mod_cast hm
  have key : ∀ k : ℤ, currentLimit (mkWarranty p k)
      = Int.floor ((maxLimit (mkWarranty p i) : ℚ) * installmentTier k) := by
    intro k
    show (if 3 ≤ k then Int.floor ((maxLimit (mkWarranty p i) : ℚ) * 1)
          else if k = 2 then Int.floor ((maxLimit (mkWarranty p i) : ℚ) * (30 / 100))
          else Int.floor ((maxLimit (mkWarranty p i) : ℚ) * (10 / 100)))
        = Int.floor ((maxLimit (mkWarranty p i) : ℚ) * installmentTier k)
    unfold installmentTier
    split_ifs <;> rfl
  have hbound : Int.floor (p * (70 / 100 : ℚ)) = maxLimit (mkWarranty p i) := rfl
  rw [key i, key j, hbound]
  constructor
  · exact Int.floor_mono (mul_le_mul_of_nonneg_left (installmentTier_monotone i j hij) hmQ)
  · calc Int.floor ((maxLimit (mkWarranty p i) : ℚ) * installmentTier i)
        ≤ Int.floor ((maxLimit (mkWarranty p i) : ℚ)) :=
          Int.floor_mono (mul_le_of_le_one_right hmQ (installmentTier_le_one i))
      _ = maxLimit (mkWarranty p i) := Int.floor_intCast _

/-- C8 witness: the property at `devicePrice = 10000`, tiers 1 and 2. -/
theorem currentLimit_monotone_and_bounded_witness :
    currentLimit (mkWarranty 10000 1) ≤ currentLimit (mkWarranty 10000 2) ∧
    currentLimit (mkWarranty 10000 1) ≤ Int.floor ((10000 : ℚ) * (70 / 100)) :=
  currentLimit_monotone_and_bounded 10000 (by norm_num) 1 2
    (by norm_num) (by norm_num) (by norm_num)

/-- C10: a permission key that is not a key of `menuPermissions` makes
`hasPermission` return `true` for every role — the menu check fails open. -/
theorem hasPermission_fails_open (permissionKey userRole : String)
    (h : permissionKey ∉ menuPermissions.map Prod.fst) :
    hasPermission permissionKey userRole = true := by
  unfold hasPermission
  have hfind : (menuPermissions.find? fun e => e.1 = permissionKey) = none := by
    rw [List.find?_eq_none]
    intro e he
    simp only [decide_eq_true_eq]
    intro heq
    exact h (heq ▸ List.mem_map_of_mem Prod.fst he)
  rw [hfind]

/-- C10 witness: an unlisted key is allowed for a role outside every list. -/
theorem hasPermission_fails_open_witness :
    "nav-dashboard" ∉ menuPermissions.map Prod.fst ∧
    hasPermission "nav-dashboard" "guest" = true :=
  ⟨by decide, hasPermission_fails_open "nav-dashboard" "guest" (by decide)⟩

/-- The claim produced by intake on the worked-example warranty. -/
def exampleClaim : Claim :=
  (intakeClaim "SML123456" "W1" exampleWarranty 0).1

/-- An attempted progress update carrying a positive cost and no evidence. -/
def costNoEvidenceRequest : UpdateRequest :=
  { title := "เปลี่ยนจอ", cost := 5, centerName := "", centerLocation := "",
    centerPhone := "", technicianName := "", technicianPhone := "",
    images := [], evidenceImages := [] }

/-- C2: an attempted progress update with `cost > 0` and zero evidence images
is rejected with an error and mutates nothing: the stored claim, hence its
`updates` length and `totalCost`, are unchanged. -/
theorem addUpdate_rejected_without_evidence (c : Claim) (req : UpdateRequest)
    (now : ℤ) (hc : 0 < req.cost) (he : req.evidenceImages.length = 0) :
    (∃ msg, addProgressUpdate c req now = Except.error msg) ∧
    addProgressUpdateState c req now = c ∧
    (addProgressUpdateState c req now).updates.length = c.updates.length ∧
    (addProgressUpdateState c req now).totalCost = c.totalCost := by
  have herr : addProgressUpdate c req now =
      Except.error "หากมีค่าใช้จ่าย กรุณาแนบรูปหลักฐานอย่างน้อย 1 รูป" := by
    unfold addProgressUpdate
    rw [if_pos ⟨hc, he⟩]
  have hstate : addProgressUpdateState c req now = c := by
    unfold addProgressUpdateState
    rw [herr]
  exact ⟨⟨_, herr⟩, hstate, by rw [hstate], by rw [hstate]⟩

/-- C2 witness: the evidence rule at `cost = 5`, zero evidence images,
against the intake-fresh example claim. -/
theorem addUpdate_rejected_without_evidence_witness :
    (0 : ℚ) < costNoEvidenceRequest.cost ∧
    costNoEvidenceRequest.evidenceImages.length = 0 ∧
    (addProgressUpdateState exampleClaim costNoEvidenceRequest 86400000).totalCost
      = exampleClaim.totalCost ∧
    (addProgressUpdateState exampleClaim costNoEvidenceRequest 86400000).updates.length
      = exampleClaim.updates.length :=
  ⟨by norm_num [costNoEvidenceRequest], rfl,
   (addUpdate_rejected_without_evidence exampleClaim costNoEvidenceRequest 86400000
      (by norm_num [costNoEvidenceRequest]) rfl).2.2.2,
   (addUpdate_rejected_without_evidence exampleClaim costNoEvidenceRequest 86400000
      (by norm_num [costNoEvidenceRequest]) rfl).2.2.1⟩

/-- C6: intake sets the owning warranty's `claimStatus` to "pending";
completion sets the claim's `status` to "รับเครื่องแล้ว", stamps a non-null
`pickupDate`, appends exactly one final completion update (of cost 0), and
resets the owning warranty's `claimStatus` to "normal". -/
theorem claim_lifecycle_status_transitions (cid wid : String) (w : Warranty)
    (now now2 : ℤ) (c : Claim) (req : CompleteRequest) :
    (intakeClaim cid wid w now).2.claimStatus = "pending" ∧
    (intakeClaim cid wid w now).1.status = "รอเคลม" ∧
    (completeClaim c req now2).status = "รับเครื่องแล้ว" ∧
    (completeClaim c req now2).pickupDate = some now2 ∧
    (completeClaim c req now2).pickupDate ≠ none ∧
    (∃ u, (completeClaim c req now2).updates = c.updates ++ [u] ∧ u.cost = 0) ∧
    (completeWarranty w).claimStatus = "normal" := by
  refine ⟨rfl, rfl, rfl, rfl, by simp [completeClaim], ⟨_, rfl, rfl⟩, rfl⟩

/-- C9 counterexample: an already-approved warranty is silently re-decided —
a later reject flips the recorded decision away from "approved", so the
transitions are not one-shot. -/
theorem approve_then_reject_overwrites_decision :
    (approveWarranty (mkWarranty 10000 1) "Alice" 100).approvalStatus
      = "approved" ∧
    (rejectWarranty (approveWarranty (mkWarranty 10000 1) "Alice" 100)
        "duplicate serial" "Bob" 200).approvalStatus = "rejected" ∧
    (rejectWarranty (approveWarranty (mkWarranty 10000 1) "Alice" 100)
        "duplicate serial" "Bob" 200).approvalStatus ≠ "approved" := by
  refine ⟨rfl, rfl, by decide⟩

/-- C9 (amended): approve stamps an actor and a timestamp, reject stamps an
actor, a timestamp and a reason — but both are unconditional overwrites:
they apply from any `approvalStatus`, and a later approve or reject replaces
the recorded decision. -/
theorem approve_reject_stamp_unconditionally (w : Warranty) (a r rb : String)
    (t t2 : ℤ) :
    (approveWarranty w a t).approvalStatus = "approved" ∧
    (approveWarranty w a t).approver = some a ∧
    (approveWarranty w a t).approvalDate = some t ∧
    (rejectWarranty w r rb t).approvalStatus = "rejected" ∧
    (rejectWarranty w r rb t).rejectReason = some r ∧
    (rejectWarranty w r rb t).rejectBy = some rb ∧
    (rejectWarranty w r rb t).rejectDate = some t ∧
    (rejectWarranty (approveWarranty w a t) r rb t2).approvalStatus
      = "rejected" ∧
    (approveWarranty (rejectWarranty w r rb t) a t2).approvalStatus
      = "approved" :=
  ⟨rfl, rfl, rfl, rfl, rfl, rfl, rfl, rfl, rfl⟩

/-- A settled claim of `totalCost` 100 against warranty "W1". -/
def claimCost100 : Claim :=
  { (intakeClaim "SML000100" "W1" exampleWarranty 0).1 with totalCost := 100 }

/-- A settled claim of `totalCost` 200 against warranty "W1". -/
def claimCost200 : Claim :=
  { (intakeClaim "SML000200" "W1" exampleWarranty 0).1 with totalCost := 200 }

/-- A settled claim of `totalCost` 0 against warranty "W1". -/
def claimCost0 : Claim :=
  (intakeClaim "SML000000" "W1" exampleWarranty 0).1

theorem claimAggTotal_perm (claims claims' : List Claim) (wid : String)
    (h : claims.Perm claims') :
    claimAggTotal claims wid = claimAggTotal claims' wid := by
  unfold claimAggTotal
  exact ((h.filter _).map Claim.totalCost).sum_eq

/-- C3: the Coverage Reconciler sets the owning warranty's `usedCoverage` to
the sum of `totalCost` over all claims referencing that warranty — a full
recompute that ignores the previously stored `usedCoverage` and is invariant
under reordering of the claims; for three claims of `totalCost` 100, 200 and
0 it yields 300 in any order. -/
theorem reconciler_recomputes_usedCoverage (claims claims' : List Claim)
    (wid : String) (w w' : Warranty) :
    (syncUsedCoverage claims wid w).usedCoverage
      = ((claims.filter fun c => c.warrantyId = wid).map Claim.totalCost).sum ∧
    (syncUsedCoverage claims wid w).usedCoverage
      = (syncUsedCoverage claims wid w').usedCoverage ∧
    (claims.Perm claims' →
      (syncUsedCoverage claims wid w).usedCoverage
        = (syncUsedCoverage claims' wid w).usedCoverage) ∧
    (claims.Perm [claimCost100, claimCost200, claimCost0] →
      (syncUsedCoverage claims "W1" w).usedCoverage = 300) := by
  refine ⟨rfl, rfl, fun h => claimAggTotal_perm claims claims' wid h, fun h => ?_⟩
  show claimAggTotal claims "W1" = 300
  rw [claimAggTotal_perm claims [claimCost100, claimCost200, claimCost0] "W1" h]
  show ((100 : ℚ) + (200 + (0 + 0))) = 300
  norm_num

/-- C3 witness: the reconciler applied to the three-claim example in a
non-creation order still yields `usedCoverage = 300`. -/
theorem reconciler_recomputes_usedCoverage_witness :
    (syncUsedCoverage [claimCost200, claimCost0, claimCost100] "W1"
        exampleWarranty).usedCoverage = 300 :=
  (reconciler_recomputes_usedCoverage [claimCost200, claimCost0, claimCost100]
      [claimCost100, claimCost200, claimCost0] "W1" exampleWarranty
      exampleWarranty).2.2.2 (by decide)

theorem costInvariant_applyOp (c : Claim) (op : ClaimOp)
    (h : costInvariant c) : costInvariant (applyOp c op) := by
  have h2 : c.totalCost = (c.updates.map ClaimUpdate.cost).sum := h
  cases op with
  | addUpdate req now =>
    show costInvariant (addProgressUpdateState c req now)
    unfold addProgressUpdateState addProgressUpdate
    by_cases hcond : req.cost > 0 ∧ req.evidenceImages.length = 0
    · simp only [if_pos hcond]
      exact h
    · simp only [if_neg hcond]
      show c.totalCost + req.cost = _
      simp [List.map_append, List.sum_append, h2]
  | complete req now =>
    show costInvariant (completeClaim c req now)
    show c.totalCost = _
    simp [completeClaim, List.map_append, List.sum_append, h2]

theorem costInvariant_runOps (c : Claim) (ops : List ClaimOp)
    (h : costInvariant c) : costInvariant (runOps c ops) := by
  induction ops generalizing c with
  | nil => exact h
  | cons op rest ih => exact ih (applyOp c op) (costInvariant_applyOp c op h)

theorem totalCost_le_applyOp (c : Claim) (op : ClaimOp)
    (h : opCostNonneg op) : c.totalCost ≤ (applyOp c op).totalCost := by
  cases op with
  | addUpdate req now =>
    show c.totalCost ≤ (addProgressUpdateState c req now).totalCost
    unfold addProgressUpdateState addProgressUpdate
    by_cases hcond : req.cost > 0 ∧ req.evidenceImages.length = 0
    · simp only [if_pos hcond]
      exact le_refl _
    · simp only [if_neg hcond]
      show c.totalCost ≤ c.totalCost + req.cost
      exact le_add_of_nonneg_right h
  | complete req now => exact le_refl _

theorem totalCost_le_runOps (c : Claim) (ops : List ClaimOp)
    (h : ∀ op ∈ ops, opCostNonneg op) :
    c.totalCost ≤ (runOps c ops).totalCost := by
  induction ops generalizing c with
  | nil => exact le_refl _
  | cons op rest ih =>
    exact le_trans (totalCost_le_applyOp c op (h op (List.mem_cons_self op rest)))
      (ih (applyOp c op) fun o ho => h o (List.mem_cons_of_mem op ho))

/-- C4 (amended): after any sequence of claim operations starting from intake,
`totalCost` equals the sum of `updates[].cost`, and every operation preserves
this equality; `totalCost` is monotonically non-decreasing over every sequence
whose progress updates all carry a nonnegative parsed cost (a negative parsed
cost — accepted by the route — decreases it). -/
theorem claim_totalCost_invariant (cid wid : String) (w : Warranty) (now : ℤ) :
    costInvariant (intakeClaim cid wid w now).1 ∧
    (∀ c op, costInvariant c → costInvariant (applyOp c op)) ∧
    (∀ c ops, costInvariant c → costInvariant (runOps c ops)) ∧
    (∀ c op, opCostNonneg op → c.totalCost ≤ (applyOp c op).totalCost) ∧
    (∀ c ops, (∀ op ∈ ops, opCostNonneg op) →
      c.totalCost ≤ (runOps c ops).totalCost) := by
  refine ⟨?_, costInvariant_applyOp, costInvariant_runOps,
    totalCost_le_applyOp, totalCost_le_runOps⟩
  show (0 : ℚ) = ([] : List ℚ).sum
  simp

/-- A progress update whose parsed cost is negative: `parseFloat("-5") || 0`
evaluates to `-5`, and `-5 > 0` is false, so the evidence gate is skipped. -/
def negativeCostRequest : UpdateRequest :=
  { title := "ส่วนลด", cost := -5, centerName := "", centerLocation := "",
    centerPhone := "", technicianName := "", technicianPhone := "",
    images := [], evidenceImages := [] }

/-- C4 counterexample: one accepted progress update with parsed cost `-5`
(zero evidence images required, since the gate only fires for `cost > 0`)
strictly decreases `totalCost`, refuting monotonic non-decrease. -/
theorem claim_totalCost_can_decrease :
    (addProgressUpdate exampleClaim negativeCostRequest 86400000).isOk = true ∧
    (runOps exampleClaim [ClaimOp.addUpdate negativeCostRequest 86400000]).totalCost
      < exampleClaim.totalCost := by
  constructor
  · rfl
  · show (runOps exampleClaim [ClaimOp.addUpdate negativeCostRequest 86400000]).totalCost
      < exampleClaim.totalCost
    have : (runOps exampleClaim [ClaimOp.addUpdate negativeCostRequest 86400000]).totalCost
        = 0 + (-5 : ℚ) := rfl
    rw [this]
    show (0 : ℚ) + (-5) < 0
    norm_num

/-- C4 witness: the invariant and monotonicity discharged on a concrete
two-operation run from intake. -/
theorem claim_totalCost_invariant_witness :
    costInvariant (runOps (intakeClaim "SML123456" "W1" exampleWarranty 0).1
      [ClaimOp.addUpdate costNoEvidenceRequest 86400000,
       ClaimOp.complete ⟨"pickup", "สาขา 1", "", "", []⟩ 172800000]) ∧
    (intakeClaim "SML123456" "W1" exampleWarranty 0).1.totalCost ≤
      (runOps (intakeClaim "SML123456" "W1" exampleWarranty 0).1
        [ClaimOp.addUpdate costNoEvidenceRequest 86400000,
         ClaimOp.complete ⟨"pickup", "สาขา 1", "", "", []⟩ 172800000]).totalCost :=
  ⟨(claim_totalCost_invariant "SML123456" "W1" exampleWarranty 0).2.2.1 _ _
      (claim_totalCost_invariant "SML123456" "W1" exampleWarranty 0).1,
   (claim_totalCost_invariant "SML123456" "W1" exampleWarranty 0).2.2.2.2 _ _
      (by intro op hop
          fin_cases hop
          · show (0 : ℚ) ≤ 5
            norm_num
          · trivial)⟩

/-- An Installment contract whose schedule has no "Paid" entry, so the
server-side derivation yields 0. -/
def unpaidInstallmentWarranty : Warranty :=
  { mkWarranty 10000 0 with
    payment := { method := "Installment", status := "Pending",
                 schedule := [⟨1, 3000, "Pending"⟩, ⟨2, 3000, "Pending"⟩,
                              ⟨3, 3000, "Pending"⟩] } }

/-- A `PUT /api/warranties/:id` body that supplies only `installmentsPaid`. -/
def clientTierBody : WarrantyUpdateBody :=
  { devicePrice := none, installmentsPaid := some 3, usedCoverage := none,
    payment := none, claimStatus := none }

/-- C5: the create route does recompute `installmentsPaid` from the payment
schedule, but the general update route persists a client-supplied
`installmentsPaid` verbatim — at the failing input (an Installment contract
with zero paid entries and a body carrying `installmentsPaid = 3`) the
persisted value is the client's 3, not the derived 0. -/
theorem putWarranty_persists_client_installmentsPaid :
    (∀ body pn, (createWarranty body pn).installmentsPaid
      = derivedInstallmentsPaid (createWarranty body pn).payment) ∧
    derivedInstallmentsPaid unpaidInstallmentWarranty.payment = 0 ∧
    (putWarranty unpaidInstallmentWarranty clientTierBody).payment
      = unpaidInstallmentWarranty.payment ∧
    (putWarranty unpaidInstallmentWarranty clientTierBody).installmentsPaid = 3 ∧
    (putWarranty unpaidInstallmentWarranty clientTierBody).installmentsPaid ≠
      derivedInstallmentsPaid
        (putWarranty unpaidInstallmentWarranty clientTierBody).payment := by
  refine ⟨fun body pn => rfl, by decide, rfl, rfl, by decide⟩

/-- C7: a pending ("รอเคลม") claim is flagged overdue exactly when five or
more whole days have elapsed since the date of its most recent update — or
since intake when it has none; at six elapsed days `daysOverdue` is 6, at
four it is not overdue and `daysOverdue` is 0. -/
theorem pending_claim_overdue_policy (c : Claim) (now : ℤ)
    (hstatus : c.status = "รอเคลม") :
    (isOverdue c now = true ↔ 5 * MS_PER_DAY ≤ now - lastUpdateTime c) ∧
    (c.updates = [] → lastUpdateTime c = c.claimDate) ∧
    (∀ us u, c.updates = us ++ [u] → lastUpdateTime c = u.date) ∧
    (isOverdue c now = false → daysOverdue c now = 0) ∧
    (now - lastUpdateTime c = 6 * MS_PER_DAY →
      isOverdue c now = true ∧ daysOverdue c now = 6) ∧
    (now - lastUpdateTime c = 4 * MS_PER_DAY →
      isOverdue c now = false ∧ daysOverdue c now = 0) := by
  have hdaypos : (0 : ℚ) < ((MS_PER_DAY : ℤ) : ℚ) := by
    show (0 : ℚ) < ((86400000 : ℤ) : ℚ)
    norm_num
  have hiff : isOverdue c now = true ↔ 5 * MS_PER_DAY ≤ now - lastUpdateTime c := by
    unfold isOverdue daysSinceUpdate
    rw [decide_eq_true_eq, Int.le_floor, le_div_iff hdaypos]
    constructor
    · intro h
      have : (5 * MS_PER_DAY : ℤ) ≤ ((now - lastUpdateTime c : ℤ)) := by
        exact_mod_cast h
      linarith
    · intro h
      have : ((5 * MS_PER_DAY : ℤ) : ℚ) ≤ ((now - lastUpdateTime c : ℤ) : ℚ) := by
        exact_mod_cast h
      push_cast at this ⊢
      linarith
  have hdays : ∀ k : ℤ, now - lastUpdateTime c = k * MS_PER_DAY →
      daysSinceUpdate c now = k := by
    intro k hk
    unfold daysSinceUpdate
    rw [hk]
    apply floor_eq_of_eq_intCast
    push_cast
    rw [mul_div_assoc, div_self (ne_of_gt hdaypos), mul_one]
  refine ⟨hiff, ?_, ?_, ?_, ?_, ?_⟩
  · intro h
    unfold lastUpdateTime
    rw [h]
    rfl
  · intro us u h
    unfold lastUpdateTime
    rw [h, List.getLast?_concat]
  · intro h
    unfold daysOverdue
    rw [if_neg (by simp [h])]
  · intro h
    have h6 : daysSinceUpdate c now = 6 := hdays 6 h
    have hov : isOverdue c now = true := by
      unfold isOverdue
      rw [h6]
      decide
    refine ⟨hov, ?_⟩
    unfold daysOverdue
    rw [if_pos (by simp [hov]), h6]
  · intro h
    have h4 : daysSinceUpdate c now = 4 := hdays 4 h
    have hov : isOverdue c now = false := by
      unfold isOverdue
      rw [h4]
      decide
    refine ⟨hov, ?_⟩
    unfold daysOverdue
    rw [if_neg (by simp [hov])]

/-- C7 witness: the fresh example claim (intake at time 0, no updates) is
overdue with `daysOverdue = 6` six days later, and not overdue four days
later. -/
theorem pending_claim_overdue_policy_witness :
    isOverdue exampleClaim 518400000 = true ∧
    daysOverdue exampleClaim 518400000 = 6 ∧
    isOverdue exampleClaim 345600000 = false ∧
    daysOverdue exampleClaim 345600000 = 0 := by
  have h6 := (pending_claim_overdue_policy exampleClaim 518400000 rfl).2.2.2.2.1
    (by show (518400000 : ℤ) - 0 = 6 * 86400000; norm_num)
  have h4 := (pending_claim_overdue_policy exampleClaim 345600000 rfl).2.2.2.2.2
    (by show (345600000 : ℤ) - 0 = 4 * 86400000; norm_num)
  exact ⟨h6.1, h6.2, h4.1, h4.2⟩

end EasyCare
